import Mathlib

/-!
A shallow embedding, in Lean 4, of the core of the `fbref_scraper` Python
repository, together with theorems settling the frozen claims about it.

Embedding conventions:
* Python strings are Lean `String`; the Python substring test `pat in s`
  is `strContains s pat` (list-infix on the character lists).
* Python `int(...)`/`float(...)` conversions on cell text are modelled by
  `pyInt`/`pyFloat`; floats are modelled as exact signed decimals
  (`PyFloat`, with numeric value `PyFloat.toRat`), which is faithful for
  the decimal literals the scraper handles.
* HTML documents are modelled structurally: a row is its list of
  `data-stat` cells, a table is its class list plus its body rows, a
  document is its list of tables.  This mirrors exactly what the
  BeautifulSoup selectors in `parser.py` observe.
* Network and browser I/O is modelled by oracle parameters describing the
  outcome of each attempt; the control flow around the oracles is
  translated line-by-line from `http.py` / `scraper.py`.
-/

/-- The Python substring test `pat in s`. -/
def strContains (s pat : String) : Bool := decide (pat.data <:+: s.data)

/-- Embedding of `RateLimitedHTTPClient._is_error_page` (http.py lines 142-161):
checks the body for known error-page signatures, first match wins, and
returns the pair `(is_error, error_type)`. -/
def is_error_page (html_content : String) : Bool × String :=
  if strContains html_content "500 error" then (true, "server_error")
  else if strContains html_content "403 Forbidden" ||
          strContains html_content "Access Denied" then (true, "forbidden")
  else if strContains html_content "404 Not Found" then (true, "not_found")
  else if strContains html_content "Rate Limit Exceeded" then (true, "rate_limit")
  else (false, "")

/-- Python `text.strip()`: drop leading and trailing whitespace.
(Implemented on the character list so that it reduces in the kernel.) -/
def pyStrip (s : String) : String :=
  ⟨((s.data.dropWhile Char.isWhitespace).reverse.dropWhile Char.isWhitespace).reverse⟩

/-- Split a character list on a separator character (Python `str.split(sep)`
semantics for a single-character separator). -/
def splitOnChar (sep : Char) : List Char → List (List Char)
  | [] => [[]]
  | c :: cs =>
    match splitOnChar sep cs with
    | [] => [[]]
    | g :: gs => if c = sep then [] :: g :: gs else (c :: g) :: gs

/-- Python `text.lower()`. -/
def pyLower (s : String) : String := ⟨s.data.map Char.toLower⟩

/-- Value of a nonempty all-digit character list (helper for `pyInt`/`pyFloat`). -/
def digitsVal (cs : List Char) : Nat :=
  cs.foldl (fun acc c => acc * 10 + (c.toNat - '0'.toNat)) 0

/-- Parse a nonempty all-digit character list, else `none`. -/
def digitsToNat? (cs : List Char) : Option Nat :=
  if cs ≠ [] ∧ cs.all Char.isDigit then some (digitsVal cs) else none

/-- Strip one leading sign character, returning (negative?, rest). -/
def stripSign (s : String) : Bool × String :=
  match s.data with
  | '-' :: rest => (true, ⟨rest⟩)
  | '+' :: rest => (false, ⟨rest⟩)
  | _ => (false, s)

/-- Python `int(text)` on stripped cell text: optional sign then digits. -/
def pyInt (s : String) : Option Int :=
  let sr := stripSign (pyStrip s)
  (digitsToNat? sr.2.data).map (fun n => if sr.1 then -(n : Int) else (n : Int))

/-- An exact signed decimal, the embedding of the Python floats the scraper
produces: the value is `±mant / 10^frac`.  (Every float the code meets comes
from a decimal literal, which this type represents exactly.) -/
structure PyFloat where
  neg : Bool
  mant : Nat
  frac : Nat
deriving DecidableEq, Repr

/-- Numeric value of an embedded float. -/
def PyFloat.toRat (x : PyFloat) : ℚ :=
  (if x.neg then -1 else 1) * (x.mant : ℚ) / (10 : ℚ) ^ x.frac

/-- The float `0.0`, the parser default for percentage fields. -/
def PyFloat.zero : PyFloat := ⟨false, 0, 0⟩

/-- Python `float(text)` on the decimal literals the scraper meets:
optional sign, digits with at most one decimal point. -/
def pyFloat (s : String) : Option PyFloat :=
  let sr := stripSign (pyStrip s)
  match splitOnChar '.' sr.2.data with
  | [ip] => (digitsToNat? ip).map (fun n => ⟨sr.1, n, 0⟩)
  | [ip, fp] =>
    if ip.all Char.isDigit ∧ fp.all Char.isDigit ∧ (ip ≠ [] ∨ fp ≠ []) then
      some ⟨sr.1, digitsVal ip * 10 ^ fp.length + digitsVal fp, fp.length⟩
    else none
  | _ => none

/-- Python `text.rstrip('%')`: drop every trailing percent sign. -/
def rstripPercent (s : String) : String :=
  ⟨(s.data.reverse.dropWhile (fun c => c = '%')).reverse⟩

/-- Leap-year rule used by the Gregorian calendar (as `datetime` validates). -/
def isLeapYear (y : Nat) : Bool :=
  (y % 4 = 0 && y % 100 ≠ 0) || y % 400 = 0

/-- Days in a month, for the day-of-month validation `datetime` performs. -/
def daysInMonth (y m : Nat) : Nat :=
  if m = 2 then (if isLeapYear y then 29 else 28)
  else if m = 4 ∨ m = 6 ∨ m = 9 ∨ m = 11 then 30
  else 31

/-- A calendar date (the embedding of `datetime.date`). -/
structure MDate where
  year : Nat
  month : Nat
  day : Nat
deriving DecidableEq, Repr

/-- Embedding of `datetime.strptime(s, "%Y-%m-%d").date()`: dash-separated all-digit
components, year in the 1..9999 range `datetime` accepts, calendar-valid month and
day; `none` models the `ValueError` raised on anything else. -/
def strptimeDate (s : String) : Option MDate :=
  match splitOnChar '-' s.data with
  | [y, m, d] =>
    match digitsToNat? y, digitsToNat? m, digitsToNat? d with
    | some yv, some mv, some dv =>
      if 1 ≤ yv ∧ yv ≤ 9999 ∧ 1 ≤ mv ∧ mv ≤ 12 ∧ 1 ≤ dv ∧ dv ≤ daysInMonth yv mv
      then some ⟨yv, mv, dv⟩ else none
    | _, _, _ => none
  | _ => none

/-- One `<td data-stat="...">` cell: its `data-stat` attribute and its text. -/
structure Cell where
  stat : String
  text : String
deriving DecidableEq, Repr

/-- Embedding of the selector `td[data-stat="..."]` lookup: first cell with that stat. -/
def findCell (cells : List Cell) (stat : String) : Option Cell :=
  cells.find? (fun c => c.stat = stat)

/-- A `<tr>` of the match-log table: its `class` attribute (empty list when
absent) and its cells. -/
structure TRow where
  classes : List String
  cells : List Cell
deriving DecidableEq, Repr

/-- A `<table>`: its `class` attribute and its `tbody tr` rows. -/
structure HtmlTable where
  classes : List String
  rows : List TRow
deriving DecidableEq, Repr

/-- An HTML document, as the match-log selectors observe it: its tables. -/
structure HtmlDoc where
  tables : List HtmlTable
deriving DecidableEq, Repr

/-- Embedding of `models.Match`: one parsed match record. -/
structure Match where
  date : MDate
  opponent : String
  venue : String
  goals_for : Int
  goals_against : Int
  shots : Int
  shots_on_target : Int
  shots_off_target : Int
  possession_pct : PyFloat
  passes_completed : Int
  pass_accuracy_pct : PyFloat
  corners_for : Option Int
  corners_against : Option Int
  fouls_committed : Option Int
  fouls_suffered : Option Int
deriving DecidableEq, Repr

/-- Embedding of `models.Team`. -/
structure Team where
  name : String
  fbref_id : String
  «matches» : List Match
deriving DecidableEq, Repr

/-- Embedding of `parser._extract_cell_value` (parser.py lines 198-229): find the cell,
return the default when it is missing or its stripped text is empty,
otherwise convert the stripped text, falling back to the default when the
conversion (transform and/or type cast) fails.  The Python
`transform`/`data_type` pair is fused into one `convert` function, both of
whose failure modes return `default_value` exactly as in the source. -/
def extract_cell_value {α : Type} (cells : List Cell) (stat_name : String)
    (convert : String → Option α) (default_value : α) : α :=
  match findCell cells stat_name with
  | none => default_value
  | some cell =>
    if pyStrip cell.text = "" then default_value
    else
      match convert (pyStrip cell.text) with
      | some v => v
      | none => default_value

/-- The converter for percentage cells: `lambda x: float(x.rstrip('%'))`. -/
def pctConvert (s : String) : Option PyFloat := pyFloat (rstripPercent s)

/-- The converter for nullable integer cells (`int` with default `None`). -/
def intOptConvert (s : String) : Option (Option Int) := (pyInt s).map some

/-- Embedding of `parser._parse_match_row` (parser.py lines 124-195).  Here `Except.error ()`
models the `ValueError` that `datetime.strptime` raises on an unparsable
date (caught by the caller); `Except.ok none` models the explicit
`return None` for a row without a (nonempty) date cell. -/
def parse_match_row (row : TRow) : Except Unit (Option Match) :=
  match findCell row.cells "date" with
  | none => .ok none
  | some date_cell =>
    if pyStrip date_cell.text = "" then .ok none
    else
      match strptimeDate (pyStrip date_cell.text) with
      | none => .error ()
      | some match_date =>
        let opponent := match findCell row.cells "opponent" with
          | some c => pyStrip c.text
          | none => "Unknown"
        let venue := match findCell row.cells "venue" with
          | some c => pyStrip c.text
          | none => "Unknown"
        let goals_for := extract_cell_value row.cells "goals_for" pyInt 0
        let goals_against := extract_cell_value row.cells "goals_against" pyInt 0
        let shots := extract_cell_value row.cells "shots" pyInt 0
        let shots_on_target := extract_cell_value row.cells "shots_on_target" pyInt 0
        let shots_off_target := shots - shots_on_target
        let possession_pct := extract_cell_value row.cells "possession" pctConvert PyFloat.zero
        let passes_completed := extract_cell_value row.cells "passes_completed" pyInt 0
        let pass_accuracy_pct := extract_cell_value row.cells "passes_pct" pctConvert PyFloat.zero
        let corners_for := extract_cell_value row.cells "corners" intOptConvert none
        let corners_against := extract_cell_value row.cells "corners_against" intOptConvert none
        let fouls_committed := extract_cell_value row.cells "fouls" intOptConvert none
        let fouls_suffered := extract_cell_value row.cells "fouled" intOptConvert none
        .ok (some {
          date := match_date
          opponent := opponent
          venue := venue
          goals_for := goals_for
          goals_against := goals_against
          shots := shots
          shots_on_target := shots_on_target
          shots_off_target := shots_off_target
          possession_pct := possession_pct
          passes_completed := passes_completed
          pass_accuracy_pct := pass_accuracy_pct
          corners_for := corners_for
          corners_against := corners_against
          fouls_committed := fouls_committed
          fouls_suffered := fouls_suffered })

/-- Row filter of parser.py line 110: keep rows with no `class` attribute
or whose class list does not contain `spacer`. -/
def keepRow (r : TRow) : Bool :=
  r.classes.isEmpty || !(r.classes.contains "spacer")

/-- The per-row conversion step of `parse_match_logs` (parser.py lines
113-119): a row whose conversion raises (bad date) or returns `None` is
skipped. -/
def rowToMatch (row : TRow) : Option Match :=
  match parse_match_row row with
  | .ok (some m) => some m
  | _ => none

/-- Embedding of `parser.parse_match_logs` (parser.py lines 82-121): take the first
`table.stats_table`, drop spacer rows, convert at most `num_matches` rows
from the top, converting each via `rowToMatch`. -/
def parse_match_logs (doc : HtmlDoc) (num_matches : Nat) : List Match :=
  match doc.tables.filter (fun t => t.classes.contains "stats_table") with
  | [] => []
  | table :: _ =>
    let match_rows := table.rows.filter keepRow
    (match_rows.take num_matches).filterMap rowToMatch

/-- One value of `FBrefScraper.KNOWN_TEAMS`: id, display name, match-log path. -/
structure KnownTeamData where
  id : String
  name : String
  matchlogs_url : String
deriving DecidableEq, Repr

/-- Embedding of `FBrefScraper.KNOWN_TEAMS` (scraper.py lines 29-70), in declaration
order (Python dict iteration order is insertion order). -/
def KNOWN_TEAMS : List (String × KnownTeamData) :=
  [ ("manchester city", ⟨"b8fd03ef", "Manchester City",
      "/en/squads/b8fd03ef/matchlogs/all_comps/Manchester-City-Scores-and-Fixtures-All-Competitions"⟩),
    ("manchester united", ⟨"19538871", "Manchester United",
      "/en/squads/19538871/matchlogs/all_comps/Manchester-United-Scores-and-Fixtures-All-Competitions"⟩),
    ("liverpool", ⟨"822bd0ba", "Liverpool",
      "/en/squads/822bd0ba/matchlogs/all_comps/Liverpool-Scores-and-Fixtures-All-Competitions"⟩),
    ("arsenal", ⟨"18bb7c10", "Arsenal",
      "/en/squads/18bb7c10/matchlogs/all_comps/Arsenal-Scores-and-Fixtures-All-Competitions"⟩),
    ("chelsea", ⟨"cff3d9bb", "Chelsea",
      "/en/squads/cff3d9bb/matchlogs/all_comps/Chelsea-Scores-and-Fixtures-All-Competitions"⟩),
    ("tottenham", ⟨"361ca564", "Tottenham Hotspur",
      "/en/squads/361ca564/matchlogs/all_comps/Tottenham-Hotspur-Scores-and-Fixtures-All-Competitions"⟩),
    ("barcelona", ⟨"206d90db", "Barcelona",
      "/en/squads/206d90db/matchlogs/all_comps/Barcelona-Scores-and-Fixtures-All-Competitions"⟩),
    ("real madrid", ⟨"53a2f082", "Real Madrid",
      "/en/squads/53a2f082/matchlogs/all_comps/Real-Madrid-Scores-and-Fixtures-All-Competitions"⟩) ]

/-- The known-entity scan of `FBrefScraper.get_team_by_name` (scraper.py
lines 184-188): lowercase the query, return the first known team whose key
equals, is contained in, or contains the lowercased query. -/
def knownLookupByName (team_name : String) : Option Team :=
  let team_key := pyLower team_name
  (KNOWN_TEAMS.find? (fun kt =>
      kt.1 = team_key || strContains team_key kt.1 || strContains kt.1 team_key)).map
    (fun kt => ⟨kt.2.name, kt.2.id, []⟩)

/-- One entry of a parsed search-results list. -/
structure SearchResult where
  name : String
  id : String
deriving DecidableEq, Repr

/-- Embedding of `FBrefScraper.search_team` (scraper.py lines 88-122): first consult
`KNOWN_TEAMS` (exact key or key contained in the query), else issue the
live search.  The live HTTP search and result parsing are I/O and are
modelled by the `liveSearch` oracle; the `except` branch of the code returning
`[]` is subsumed by letting the oracle return `[]`. -/
def search_team (liveSearch : String → List SearchResult) (team_name : String) :
    List SearchResult :=
  let team_key := pyLower team_name
  match KNOWN_TEAMS.find? (fun kt => kt.1 = team_key || strContains team_key kt.1) with
  | some kt => [⟨kt.2.name, kt.2.id⟩]
  | none => liveSearch team_name

/-- Embedding of `FBrefScraper.get_team_by_name` (scraper.py lines 171-201): known-team
scan first, else fall back to `search_team` and take its first result. -/
def get_team_by_name (liveSearch : String → List SearchResult) (team_name : String) :
    Option Team :=
  match knownLookupByName team_name with
  | some t => some t
  | none =>
    match search_team liveSearch team_name with
    | [] => none
    | r :: _ => some ⟨r.name, r.id, []⟩

/-- Embedding of `mock_data.TEAM_DATA` (mock_data.py lines 10-269), in declaration
order.  Each entry carries the display name, id and full mock match
list (the `liverpool` entry has an empty list, as in the source); float
literals appear as exact decimals, e.g. `60.2` as `⟨false, 602, 1⟩`. -/
def TEAM_DATA : List (String × Team) :=
  [ ("manchester city", ⟨"Manchester City", "b8fd03ef",
      [ ⟨⟨2025, 5, 10⟩, "Arsenal", "Home", 3, 1, 15, 8, 7, ⟨false, 602, 1⟩, 500, ⟨false, 885, 1⟩, some 7, some 3, some 10, some 12⟩,
        ⟨⟨2025, 5, 3⟩, "Liverpool", "Away", 2, 2, 12, 5, 7, ⟨false, 558, 1⟩, 450, ⟨false, 850, 1⟩, some 6, some 4, some 8, some 9⟩,
        ⟨⟨2025, 4, 29⟩, "Manchester United", "Home", 4, 0, 18, 10, 8, ⟨false, 653, 1⟩, 550, ⟨false, 902, 1⟩, some 8, some 2, some 7, some 10⟩,
        ⟨⟨2025, 4, 22⟩, "Tottenham", "Away", 1, 1, 14, 6, 8, ⟨false, 585, 1⟩, 480, ⟨false, 875, 1⟩, some 5, some 5, some 9, some 8⟩,
        ⟨⟨2025, 4, 18⟩, "Chelsea", "Home", 2, 0, 16, 9, 7, ⟨false, 627, 1⟩, 520, ⟨false, 898, 1⟩, some 7, some 3, some 6, some 11⟩,
        ⟨⟨2025, 4, 12⟩, "Newcastle", "Away", 3, 2, 15, 8, 7, ⟨false, 596, 1⟩, 490, ⟨false, 864, 1⟩, some 6, some 4, some 8, some 10⟩,
        ⟨⟨2025, 4, 6⟩, "Leicester", "Home", 5, 0, 20, 12, 8, ⟨false, 682, 1⟩, 580, ⟨false, 920, 1⟩, some 9, some 1, some 5, some 8⟩ ]⟩),
    ("manchester united", ⟨"Manchester United", "19538871",
      [ ⟨⟨2025, 5, 10⟩, "Chelsea", "Home", 2, 1, 14, 7, 7, ⟨false, 543, 1⟩, 460, ⟨false, 842, 1⟩, some 6, some 4, some 11, some 9⟩,
        ⟨⟨2025, 5, 3⟩, "Arsenal", "Away", 1, 2, 10, 4, 6, ⟨false, 457, 1⟩, 400, ⟨false, 805, 1⟩, some 4, some 7, some 12, some 8⟩,
        ⟨⟨2025, 4, 29⟩, "Manchester City", "Away", 0, 4, 8, 2, 6, ⟨false, 347, 1⟩, 320, ⟨false, 758, 1⟩, some 2, some 8, some 10, some 7⟩,
        ⟨⟨2025, 4, 22⟩, "Newcastle", "Home", 2, 0, 15, 8, 7, ⟨false, 582, 1⟩, 470, ⟨false, 853, 1⟩, some 7, some 3, some 8, some 10⟩,
        ⟨⟨2025, 4, 18⟩, "Liverpool", "Away", 1, 3, 9, 3, 6, ⟨false, 425, 1⟩, 380, ⟨false, 796, 1⟩, some 3, some 8, some 14, some 7⟩,
        ⟨⟨2025, 4, 12⟩, "Tottenham", "Home", 2, 2, 13, 6, 7, ⟨false, 514, 1⟩, 440, ⟨false, 832, 1⟩, some 5, some 5, some 9, some 9⟩,
        ⟨⟨2025, 4, 6⟩, "Aston Villa", "Away", 1, 0, 12, 5, 7, ⟨false, 536, 1⟩, 450, ⟨false, 828, 1⟩, some 6, some 4, some 10, some 8⟩ ]⟩),
    ("liverpool", ⟨"Liverpool", "822bd0ba", []⟩) ]

/-- Embedding of `mock_data.get_mock_team` (mock_data.py lines 271-298): exact match on
the lowercased key first, then the first partial (either-direction
containment) match; the returned team carries at most `num_matches`
matches. -/
def get_mock_team (team_name : String) (num_matches : Nat) : Option Team :=
  let team_key := pyLower team_name
  match TEAM_DATA.find? (fun kv => kv.1 = team_key) with
  | some kv => some { kv.2 with «matches» := kv.2.«matches».take num_matches }
  | none =>
    match TEAM_DATA.find? (fun kv =>
        strContains team_key kv.1 || strContains kv.1 team_key) with
    | some kv => some { kv.2 with «matches» := kv.2.«matches».take num_matches }
    | none => none

/-- Embedding of `FBrefScraper.get_match_logs` (scraper.py lines 203-260).  The whole
`try` block (known-URL selection, HTTP fetch, `parse_match_logs`) is I/O
and is modelled by the `liveLogs` oracle: `.ok ms` is the parsed match
list, `.error ()` any exception inside the block.  The `except` branch is
translated literally: with mock data enabled, a mock team with a nonempty
match list supplies the result, otherwise `[]`. -/
def get_match_logs (use_mock_data : Bool) (liveLogs : Except Unit (List Match))
    (team : Team) (num_matches : Nat) : List Match :=
  match liveLogs with
  | .ok ms => ms
  | .error _ =>
    if use_mock_data then
      match get_mock_team team.name num_matches with
      | some mock_team =>
        if mock_team.«matches».isEmpty then [] else mock_team.«matches»
      | none => []
    else []

/-- Embedding of `FBrefScraper.fetch_team_data` (scraper.py lines 262-296).  URL-based
resolution (`get_team_by_url`, regex + HTTP) is modelled by the
`urlResolve` oracle; name-based resolution is the embedded
`get_team_by_name`.  When no team resolves the function returns `none`;
when the match list is empty and mock data is enabled, the mock team (if
any) is returned, else the team with the (possibly empty) real list. -/
def fetch_team_data (use_mock_data : Bool) (liveSearch : String → List SearchResult)
    (urlResolve : String → Option Team) (liveLogs : Except Unit (List Match))
    (team_identifier : String) (is_url : Bool) (num_matches : Nat) : Option Team :=
  let team? := if is_url then urlResolve team_identifier
               else get_team_by_name liveSearch team_identifier
  match team? with
  | none => none
  | some team =>
    let ms := get_match_logs use_mock_data liveLogs team num_matches
    if ms.isEmpty && use_mock_data then
      match get_mock_team team.name num_matches with
      | some mock_team => some mock_team
      | none => some { team with «matches» := ms }
    else some { team with «matches» := ms }

/-- A `requests.Response`, reduced to the fields the client inspects. -/
structure HttpResponse where
  status : Nat
  body : String
deriving DecidableEq, Repr

/-- Outcome of the single lightweight `session.get` attempt (attempt 0):
either a response or a raised `RequestException`. -/
inductive FirstOutcome
  | resp (r : HttpResponse)
  | exn
deriving DecidableEq, Repr

/-- Outcome of a Selenium attempt: a rendered page source, a
`TimeoutException` while waiting for the page, or a `WebDriverException`. -/
inductive BrowserOutcome
  | page (body : String)
  | timeout
  | exn
deriving DecidableEq, Repr

/-- The exception kinds `get` can let escape. `unboundLocal` models
the Python `UnboundLocalError` at the final `return response` when the
variable `response` was never assigned on the executed path. -/
inductive PyExn
  | requestExn
  | timeoutExn
  | unboundLocal
deriving DecidableEq, Repr

/-- Result of `RateLimitedHTTPClient.get`. -/
inductive GetResult
  | ok (r : HttpResponse)
  | err (e : PyExn)
deriving DecidableEq, Repr

/-- The mutable client state the claims are about:
`RateLimitedHTTPClient.last_request_time`. -/
structure ClientState where
  last_request_time : Nat
deriving DecidableEq, Repr

/-- The final `return response` of `get` (http.py line 309), also reached
by the `break` on line 248: returns whatever the local variable `response`
last held, and raises `UnboundLocalError` when it was never assigned. -/
def returnLastResponse (response : Option HttpResponse) : GetResult :=
  match response with
  | some r => .ok r
  | none => .err .unboundLocal

/-- The `while retries <= self.max_retries` loop of
`RateLimitedHTTPClient.get` (http.py lines 190-309), translated
branch-by-branch.  `first` is the outcome of the one lightweight
`session.get` (executed only when `retries == 0`); `browser retries` the
outcome of the Selenium attempt at that retry count; `now` the value of
`time.time()` when a delivery is recorded.  Sleeps, jitter, user-agent
rotation and log lines have no effect on the modelled state and are
omitted; the rate-limit wait reads but never writes `last_request_time`.
The structural `fuel` argument only bounds the recursion: `retries` grows
by exactly 1 per iteration, so the loop runs at most `max_retries + 2`
iterations and the fuel-exhaustion branch (which returns the same value as
the loop exit) is unreachable for the fuel `get` supplies. -/
def getLoop (first : FirstOutcome) (browser : Nat → BrowserOutcome)
    (max_retries : Nat) (now : Nat) (st : ClientState) :
    (fuel : Nat) → (retries : Nat) → Option HttpResponse → GetResult × ClientState
  | 0, _, response => (returnLastResponse response, st)
  | fuel + 1, retries, response =>
    if max_retries < retries then
      (returnLastResponse response, st)
    else
      if retries = 0 then
        match first with
        | .exn =>
          if max_retries < retries + 1 then (.err .requestExn, st)
          else getLoop first browser max_retries now st fuel (retries + 1) response
        | .resp r =>
          if r.status = 403 ∨ r.status = 429 ∨ r.status = 500 then
            getLoop first browser max_retries now st fuel (retries + 1) (some r)
          else if (is_error_page r.body).1 then
            getLoop first browser max_retries now st fuel (retries + 1) (some r)
          else if 400 ≤ r.status then
            if max_retries < retries + 1 then (.err .requestExn, st)
            else getLoop first browser max_retries now st fuel (retries + 1) (some r)
          else
            (.ok r, { st with last_request_time := now })
      else
        match browser retries with
        | .exn =>
          if max_retries < retries + 1 then (.err .requestExn, st)
          else getLoop first browser max_retries now st fuel (retries + 1) response
        | .timeout =>
          if max_retries ≤ retries then (.err .timeoutExn, st)
          else getLoop first browser max_retries now st fuel (retries + 1) response
        | .page body =>
          if (is_error_page body).1 then
            if (is_error_page body).2 = "server_error" ∧ max_retries ≤ retries then
              (returnLastResponse response, st)
            else getLoop first browser max_retries now st fuel (retries + 1) response
          else
            (.ok ⟨200, body⟩, { st with last_request_time := now })

/-- Embedding of `RateLimitedHTTPClient.get` (http.py lines 163-309): run the retry
loop from `retries = 0` with the local variable `response` unassigned. -/
def RateLimitedHTTPClient.get (first : FirstOutcome) (browser : Nat → BrowserOutcome)
    (max_retries : Nat) (now : Nat) (st : ClientState) : GetResult × ClientState :=
  getLoop first browser max_retries now st (max_retries + 2) 0 none

deriving instance DecidableEq for Except

/-- The Arsenal row of the two-row match-log scenario. -/
def rowArsenal : TRow :=
  ⟨[], [⟨"date", "2023-05-01"⟩, ⟨"opponent", "Arsenal"⟩, ⟨"venue", "Home"⟩,
        ⟨"goals_for", "3"⟩, ⟨"goals_against", "1"⟩, ⟨"shots", "15"⟩,
        ⟨"shots_on_target", "8"⟩, ⟨"possession", "60.2%"⟩,
        ⟨"passes_completed", "500"⟩, ⟨"passes_pct", "88.5%"⟩,
        ⟨"corners", "7"⟩, ⟨"corners_against", "3"⟩,
        ⟨"fouls", "10"⟩, ⟨"fouled", "12"⟩]⟩

/-- The Chelsea row of the two-row match-log scenario. -/
def rowChelsea : TRow :=
  ⟨[], [⟨"date", "2023-04-25"⟩, ⟨"opponent", "Chelsea"⟩, ⟨"venue", "Away"⟩,
        ⟨"goals_for", "2"⟩, ⟨"goals_against", "2"⟩, ⟨"shots", "12"⟩,
        ⟨"shots_on_target", "5"⟩, ⟨"possession", "55.8%"⟩,
        ⟨"passes_completed", "450"⟩, ⟨"passes_pct", "85.0%"⟩,
        ⟨"corners", "6"⟩, ⟨"corners_against", "4"⟩,
        ⟨"fouls", "8"⟩, ⟨"fouled", "9"⟩]⟩

/-- The record `_parse_match_row` produces for `rowArsenal`. -/
def matchArsenal : Match :=
  ⟨⟨2023, 5, 1⟩, "Arsenal", "Home", 3, 1, 15, 8, 7, ⟨false, 602, 1⟩, 500,
    ⟨false, 885, 1⟩, some 7, some 3, some 10, some 12⟩

/-- The record `_parse_match_row` produces for `rowChelsea`. -/
def matchChelsea : Match :=
  ⟨⟨2023, 4, 25⟩, "Chelsea", "Away", 2, 2, 12, 5, 7, ⟨false, 558, 1⟩, 450,
    ⟨false, 850, 1⟩, some 6, some 4, some 8, some 9⟩

/-- A document with one statistics table holding the two scenario rows. -/
def docTwoRows : HtmlDoc := ⟨[⟨["stats_table"], [rowArsenal, rowChelsea]⟩]⟩

/-- A row reporting more shots on target than total shots. -/
def rowNegOff : TRow :=
  ⟨[], [⟨"date", "2023-05-01"⟩, ⟨"shots", "1"⟩, ⟨"shots_on_target", "2"⟩]⟩

/-- A row with a valid date and a shots cell but no shots-on-target cell. -/
def rowNoSot : TRow := ⟨[], [⟨"date", "2023-05-01"⟩, ⟨"shots", "5"⟩]⟩

/-- The record `_parse_match_row` produces for `rowNoSot`. -/
def mNoSot : Match :=
  ⟨⟨2023, 5, 1⟩, "Unknown", "Unknown", 0, 0, 5, 0, 5, PyFloat.zero, 0,
    PyFloat.zero, none, none, none, none⟩

/-- A row whose date text does not parse. -/
def rowBadDate : TRow := ⟨[], [⟨"date", "not-a-date"⟩, ⟨"shots", "5"⟩]⟩

/-- A row with a valid date and malformed optional-field cells. -/
def rowBadOpt : TRow :=
  ⟨[], [⟨"date", "2023-05-01"⟩, ⟨"possession", "abc%"⟩, ⟨"shots", "xyz"⟩]⟩


/-- The record `_parse_match_row` produces for `rowBadOpt`: every
malformed cell degraded to its default. -/
def mBadOpt : Match :=
  ⟨⟨2023, 5, 1⟩, "Unknown", "Unknown", 0, 0, 0, 0, 0, PyFloat.zero, 0,
    PyFloat.zero, none, none, none, none⟩

/-- A visual spacer row, as the match-log table interleaves them. -/
def rowSpacer : TRow := ⟨["spacer"], []⟩

/-- The team `get_mock_team "Manchester City" 7` returns (its mock entry
with the match list capped at 7). -/
def manCityMock : Team :=
  match TEAM_DATA.find? (fun kv => kv.1 = "manchester city") with
  | some kv => { kv.2 with «matches» := kv.2.«matches».take 7 }
  | none => ⟨"", "", []⟩

/-! ## Theorems settling the claims -/

/-- C1: `_is_error_page` is total — every body maps to exactly one of the
five labels (`(false, "")` being the "none" label; the code spells the
rate-limited label `"rate_limit"`) — and precedence is first-match: a body
containing the rate-limit phrase together with a generic "error" phrase
(while carrying none of the earlier, more specific signatures, which by
first-match precedence would win) classifies as rate-limited. -/
theorem classify_total_and_rate_limited_precedence (body : String) :
    (is_error_page body = (false, "") ∨ is_error_page body = (true, "server_error") ∨
     is_error_page body = (true, "forbidden") ∨ is_error_page body = (true, "not_found") ∨
     is_error_page body = (true, "rate_limit")) ∧
    (strContains body "Rate Limit Exceeded" = true → strContains body "error" = true →
     strContains body "500 error" = false → strContains body "403 Forbidden" = false →
     strContains body "Access Denied" = false → strContains body "404 Not Found" = false →
     is_error_page body = (true, "rate_limit")) := by
  constructor
  · unfold is_error_page
    split_ifs <;> simp
  · intro h1 _ h3 h4 h5 h6
    simp [is_error_page, h1, h3, h4, h5, h6]

/-- C1 witness: a body holding both the rate-limit phrase and the word
"error" classifies as rate-limited. -/
theorem classify_rate_limited_witness :
    is_error_page "An error occurred: Rate Limit Exceeded" = (true, "rate_limit") :=
  (classify_total_and_rate_limited_precedence "An error occurred: Rate Limit Exceeded").2
    (by decide) (by decide) (by decide) (by decide) (by decide) (by decide)

/-- Fields of any successfully converted record equal the corresponding
`_extract_cell_value` results, and its shots-off-target is the plain
difference computed on parser.py line 162. -/
theorem parse_match_row_ok_fields (r : TRow) (m : Match)
    (h : parse_match_row r = .ok (some m)) :
    m.shots = extract_cell_value r.cells "shots" pyInt 0 ∧
    m.shots_on_target = extract_cell_value r.cells "shots_on_target" pyInt 0 ∧
    m.shots_off_target = m.shots - m.shots_on_target ∧
    m.possession_pct = extract_cell_value r.cells "possession" pctConvert PyFloat.zero := by
  unfold parse_match_row at h
  split at h
  · exact absurd h (by simp)
  · split at h
    · exact absurd h (by simp)
    · split at h
      · exact absurd h (by simp)
      · simp only [Except.ok.injEq, Option.some.injEq] at h
        subst h
        exact ⟨rfl, rfl, rfl, rfl⟩

/-- C2 counterexample: the code computes `shots - shots_on_target` with no
floor at 0 (parser.py line 162): a row reporting 1 shot but 2 on target
parses to a record whose shots-off-target is `-1`, not
`max (shots - shots_on_target) 0 = 0`. -/
theorem shots_off_target_not_floored :
    rowToMatch rowNegOff =
      some ⟨⟨2023, 5, 1⟩, "Unknown", "Unknown", 0, 0, 1, 2, -1, PyFloat.zero, 0,
        PyFloat.zero, none, none, none, none⟩ ∧
    (-1 : Int) ≠ max ((1 : Int) - 2) 0 := by
  exact ⟨by decide, by decide⟩

/-- C2 amended: for every successfully parsed row, shots-off-target equals
shots minus shots-on-target with no floor, and a row missing the
shots-on-target cell defaults that value to 0, so shots-off-target equals
shots (the parse does not raise). -/
theorem shots_off_target_is_plain_difference (r : TRow) (m : Match)
    (h : parse_match_row r = .ok (some m)) :
    m.shots_off_target = m.shots - m.shots_on_target ∧
    (findCell r.cells "shots_on_target" = none →
      m.shots_on_target = 0 ∧ m.shots_off_target = m.shots) := by
  obtain ⟨hs, hsot, hoff, -⟩ := parse_match_row_ok_fields r m h
  refine ⟨hoff, fun hnone => ?_⟩
  have h0 : m.shots_on_target = 0 := by
    rw [hsot]; unfold extract_cell_value; rw [hnone]
  exact ⟨h0, by rw [hoff, h0]; omega⟩

/-- C2 witness: a concrete row without a shots-on-target cell parses with
shots-on-target 0 and shots-off-target equal to shots. -/
theorem shots_off_target_is_plain_difference_witness :
    mNoSot.shots_off_target = mNoSot.shots - mNoSot.shots_on_target ∧
    mNoSot.shots_on_target = 0 ∧ mNoSot.shots_off_target = mNoSot.shots :=
  ⟨(shots_off_target_is_plain_difference rowNoSot mNoSot (by decide)).1,
   (shots_off_target_is_plain_difference rowNoSot mNoSot (by decide)).2 (by decide)⟩

/-- C3: at the final allowed attempt a browser page classified
`server_error` makes `get` break out to `return response` with the stale
local variable `response` (http.py lines 244-248, 309).  When the
lightweight first attempt raised — so `response` was never assigned — this
crashes with `UnboundLocalError` instead of returning a response; when the
first attempt returned a blocked page, the stale first response, not the
browser page, is returned. -/
theorem server_error_final_attempt_stale_response :
    is_error_page "oops 500 error" = (true, "server_error") ∧
    RateLimitedHTTPClient.get .exn (fun _ => .page "oops 500 error") 3 42 ⟨0⟩
      = (.err .unboundLocal, ⟨0⟩) ∧
    RateLimitedHTTPClient.get (.resp ⟨200, "403 Forbidden"⟩)
        (fun _ => .page "oops 500 error") 3 42 ⟨0⟩
      = (.ok ⟨200, "403 Forbidden"⟩, ⟨0⟩) :=
  ⟨by decide, by decide, by decide⟩

/-- C4 counterexample: neither of `"man city"` and `"manchester city"`
contains the other, so the query "man city" resolves through no branch of
the known-entity lookup; with the live search returning nothing, full
name resolution also fails. -/
theorem man_city_does_not_resolve_via_known_table :
    strContains "manchester city" "man city" = false ∧
    strContains "man city" "manchester city" = false ∧
    knownLookupByName "man city" = none ∧
    search_team (fun _ => []) "man city" = [] ∧
    get_team_by_name (fun _ => []) "man city" = none := by decide

/-- C4 amended: the known-entity lookup lowercases the query and tests, in
declaration order, key equality or substring containment in either
direction — every hit arises from such a containment.  Consequently
"man city" (contained in no key, containing none) does not resolve via the
table, while a query such as "city", a substring of the key
"manchester city", does. -/
theorem known_lookup_by_containment (name : String) (t : Team)
    (h : knownLookupByName name = some t) :
    ∃ kt ∈ KNOWN_TEAMS,
      (kt.1 = pyLower name ∨ strContains (pyLower name) kt.1 = true ∨
       strContains kt.1 (pyLower name) = true) ∧
      t = ⟨kt.2.name, kt.2.id, []⟩ := by
  simp only [knownLookupByName, Option.map_eq_some'] at h
  obtain ⟨kt, hfind, ht⟩ := h
  refine ⟨kt, List.mem_of_find?_eq_some hfind, ?_, ht.symm⟩
  have hp := List.find?_some hfind
  have hp' := by simpa [Bool.or_eq_true, decide_eq_true_eq] using hp
  tauto

/-- C4 witness: the query "city" resolves to Manchester City through a
containment hit in the known table. -/
theorem known_lookup_by_containment_witness :
    ∃ kt ∈ KNOWN_TEAMS,
      (kt.1 = pyLower "city" ∨ strContains (pyLower "city") kt.1 = true ∨
       strContains kt.1 (pyLower "city") = true) ∧
      (⟨"Manchester City", "b8fd03ef", []⟩ : Team) = ⟨kt.2.name, kt.2.id, []⟩ :=
  known_lookup_by_containment "city" ⟨"Manchester City", "b8fd03ef", []⟩ (by decide)

/-- C5: synthetic data is substituted only at the match-log stage.  When
the identifier resolves to no team, `fetch_team_data` returns `none`
whatever the offline-fallback flag and whatever the match-log stage would
have produced; when a team does resolve but real acquisition yields zero
records and the flag is enabled, the mock team (when one exists) is
substituted. -/
theorem mock_fallback_only_at_match_log_stage :
    (∀ (use_mock_data : Bool) (liveSearch : String → List SearchResult)
       (urlResolve : String → Option Team) (liveLogs : Except Unit (List Match))
       (team_identifier : String) (is_url : Bool) (num_matches : Nat),
       (if is_url then urlResolve team_identifier
        else get_team_by_name liveSearch team_identifier) = none →
       fetch_team_data use_mock_data liveSearch urlResolve liveLogs
         team_identifier is_url num_matches = none) ∧
    (∀ (liveSearch : String → List SearchResult) (urlResolve : String → Option Team)
       (team_identifier : String) (is_url : Bool) (num_matches : Nat)
       (team mt : Team),
       (if is_url then urlResolve team_identifier
        else get_team_by_name liveSearch team_identifier) = some team →
       get_mock_team team.name num_matches = some mt →
       fetch_team_data true liveSearch urlResolve (.ok []) team_identifier
         is_url num_matches = some mt) := by
  constructor
  · intro um liveSearch urlResolve liveLogs id is_url n h
    simp only [fetch_team_data, h]
  · intro liveSearch urlResolve id is_url n team mt h1 h2
    simp [fetch_team_data, get_match_logs, h1, h2]

/-- C5 witness: an unresolvable name yields `none` with the fallback flag
both on and off, while a resolvable name with an empty real match list and
the flag on yields its mock team. -/
theorem mock_fallback_only_at_match_log_stage_witness :
    fetch_team_data true (fun _ => []) (fun _ => none) (.ok [])
      "no such nonexistent team" false 7 = none ∧
    fetch_team_data false (fun _ => []) (fun _ => none) (.ok [])
      "no such nonexistent team" false 7 = none ∧
    fetch_team_data true (fun _ => []) (fun _ => none) (.ok [])
      "manchester city" false 7 = some manCityMock :=
  ⟨mock_fallback_only_at_match_log_stage.1 true (fun _ => []) (fun _ => none)
      (.ok []) "no such nonexistent team" false 7 (by decide),
   mock_fallback_only_at_match_log_stage.1 false (fun _ => []) (fun _ => none)
      (.ok []) "no such nonexistent team" false 7 (by decide),
   mock_fallback_only_at_match_log_stage.2 (fun _ => []) (fun _ => none)
      "manchester city" false 7 ⟨"Manchester City", "b8fd03ef", []⟩ manCityMock
      (by decide) (by decide)⟩

/-- A row with a missing, empty or unparsable date cell converts to
nothing (parser.py lines 135-144 plus the `except` in the caller). -/
theorem rowToMatch_eq_none_of_bad_date (r : TRow)
    (h : findCell r.cells "date" = none ∨
         (∃ c, findCell r.cells "date" = some c ∧
           (pyStrip c.text = "" ∨ strptimeDate (pyStrip c.text) = none))) :
    rowToMatch r = none := by
  rcases h with h | ⟨c, hc, h⟩
  · simp [rowToMatch, parse_match_row, h]
  · rcases h with he | hn
    · simp [rowToMatch, parse_match_row, hc, he]
    · by_cases he : pyStrip c.text = "" <;>
        simp [rowToMatch, parse_match_row, hc, he, hn]

/-- Evaluating `parse_match_logs` on a document whose first table is a stats table:
the first table is used, spacer rows are dropped, at most `n` of the
remaining rows are converted in order. -/
theorem parse_match_logs_first_table (t : HtmlTable) (rest : List HtmlTable) (n : Nat)
    (h : t.classes.contains "stats_table" = true) :
    parse_match_logs ⟨t :: rest⟩ n
      = ((t.rows.filter keepRow).take n).filterMap rowToMatch := by
  have hm : "stats_table" ∈ t.classes := by simpa using h
  simp [parse_match_logs, List.filter_cons, hm]

/-- The helper `_extract_cell_value` returns the default whenever the conversion of
the (found, nonempty) cell text fails (parser.py lines 218-229). -/
theorem extract_cell_value_default_of_conv_none {α : Type} (cells : List Cell)
    (stat : String) (c : Cell) (conv : String → Option α) (dflt : α)
    (h1 : findCell cells stat = some c) (h2 : conv (pyStrip c.text) = none) :
    extract_cell_value cells stat conv dflt = dflt := by
  simp only [extract_cell_value, h1]
  by_cases he : pyStrip c.text = ""
  · simp [he]
  · simp [he, h2]

/-- C6: a row whose date cell is missing, empty or unparsable is dropped
entirely from the parse result, while a row whose date parses always
yields a record — and any cell whose conversion fails degrades to the
field default via `_extract_cell_value`, never dropping the row. -/
theorem bad_date_drops_row_other_failures_degrade :
    (∀ (r : TRow) (n : Nat),
       (findCell r.cells "date" = none ∨
        (∃ c, findCell r.cells "date" = some c ∧
          (pyStrip c.text = "" ∨ strptimeDate (pyStrip c.text) = none))) →
       parse_match_logs ⟨[⟨["stats_table"], [r]⟩]⟩ n = []) ∧
    (∀ (r : TRow) (c : Cell) (d : MDate),
       findCell r.cells "date" = some c → strptimeDate (pyStrip c.text) = some d →
       ∃ m, parse_match_row r = .ok (some m)) ∧
    (∀ {α : Type} (cells : List Cell) (stat : String) (c : Cell)
       (conv : String → Option α) (dflt : α),
       findCell cells stat = some c → conv (pyStrip c.text) = none →
       extract_cell_value cells stat conv dflt = dflt) := by
  refine ⟨?_, ?_, ?_⟩
  · intro r n h
    have hnone := rowToMatch_eq_none_of_bad_date r h
    rw [parse_match_logs_first_table ⟨["stats_table"], [r]⟩ [] n (by rfl)]
    cases hk : keepRow r <;> cases n <;>
      simp [List.filter_cons, hk, hnone]
  · intro r c d h1 h2
    have hne : pyStrip c.text ≠ "" := by
      intro he
      rw [he, show strptimeDate "" = none from by decide] at h2
      exact Option.noConfusion h2
    simp only [parse_match_row, h1, if_neg hne, h2]
    exact ⟨_, rfl⟩
  · intro α cells stat c conv dflt h1 h2
    exact extract_cell_value_default_of_conv_none cells stat c conv dflt h1 h2

/-- C6 witness: the unparsable-date row is dropped; the row with a valid
date and malformed optional cells still parses; its malformed possession
cell degrades to the 0.0 default. -/
theorem bad_date_drops_row_other_failures_degrade_witness :
    parse_match_logs ⟨[⟨["stats_table"], [rowBadDate]⟩]⟩ 7 = [] ∧
    (∃ m, parse_match_row rowBadOpt = .ok (some m)) ∧
    extract_cell_value rowBadOpt.cells "possession" pctConvert PyFloat.zero
      = PyFloat.zero :=
  ⟨bad_date_drops_row_other_failures_degrade.1 rowBadDate 7
      (Or.inr ⟨⟨"date", "not-a-date"⟩, by decide, Or.inr (by decide)⟩),
   bad_date_drops_row_other_failures_degrade.2.1 rowBadOpt
      ⟨"date", "2023-05-01"⟩ ⟨2023, 5, 1⟩ (by decide) (by decide),
   bad_date_drops_row_other_failures_degrade.2.2 rowBadOpt.cells "possession"
      ⟨"possession", "abc%"⟩ pctConvert PyFloat.zero (by decide) (by decide)⟩

/-- Appending a percent sign and then stripping trailing percent signs is
the same as stripping the original text. -/
theorem rstripPercent_append_pct (s : String) :
    rstripPercent (s ++ "%") = rstripPercent s := by
  simp [rstripPercent, String.data_append, List.dropWhile_cons]

/-- Stripping trailing percent signs from text that does not end in one
leaves it unchanged. -/
theorem rstripPercent_eq_self (s : String) (h : s.data.getLast? ≠ some '%') :
    rstripPercent s = s := by
  refine congrArg String.mk ?_
  cases hrev : s.data.reverse with
  | nil =>
    simp [List.reverse_eq_nil_iff.mp hrev]
  | cons c rest =>
    have hc : c ≠ '%' := by
      intro hc
      apply h
      rw [List.getLast?_eq_head?_reverse, hrev, hc]
      rfl
    rw [List.dropWhile_cons, if_neg (by simpa using hc), ← hrev,
      List.reverse_reverse]

/-- C7: the percentage converter strips a trailing percent sign before the
numeric conversion — on value text not itself ending in `%`, converting
`text ++ "%"` equals converting the bare text — and a possession cell
whose text fails the conversion leaves the possession of the parsed record at
the 0.0 default (the row itself still parses, no error is thrown). -/
theorem pct_cells_strip_sign_and_default :
    (∀ s : String, s.data.getLast? ≠ some '%' →
       pctConvert (s ++ "%") = pyFloat s) ∧
    (∀ (r : TRow) (m : Match) (c : Cell),
       parse_match_row r = .ok (some m) →
       findCell r.cells "possession" = some c →
       pctConvert (pyStrip c.text) = none →
       m.possession_pct = PyFloat.zero) := by
  constructor
  · intro s h
    show pyFloat (rstripPercent (s ++ "%")) = pyFloat s
    rw [rstripPercent_append_pct, rstripPercent_eq_self s h]
  · intro r m c h hc hconv
    obtain ⟨-, -, -, hposs⟩ := parse_match_row_ok_fields r m h
    rw [hposs]
    exact extract_cell_value_default_of_conv_none r.cells "possession" c
      pctConvert PyFloat.zero hc hconv

/-- C7 witness: `"60.2%"` converts to the value of `"60.2"`, and the row
with possession text `"abc%"` parses with possession 0.0. -/
theorem pct_cells_strip_sign_and_default_witness :
    pctConvert ("60.2" ++ "%") = pyFloat "60.2" ∧
    mBadOpt.possession_pct = PyFloat.zero :=
  ⟨pct_cells_strip_sign_and_default.1 "60.2" (by decide),
   pct_cells_strip_sign_and_default.2 rowBadOpt mBadOpt ⟨"possession", "abc%"⟩
      (by decide) (by decide) (by decide)⟩

/-- A row whose class list carries `spacer` fails the row filter of
parser.py line 110. -/
theorem keepRow_false_of_spacer (sp : TRow)
    (h : sp.classes.contains "spacer" = true) : keepRow sp = false := by
  rcases sp with ⟨cls, cells⟩
  cases cls with
  | nil => simp at h
  | cons a l => simp_all [keepRow]

/-- C8: `parse_match_logs` returns at most `limit` records; it reads only
the first statistics table; a spacer row is excluded before the limit is
applied (inserting one changes nothing); and on the two-row scenario
document with limit 2 it returns exactly the two records in document
order. -/
theorem parse_match_logs_limit_order_spacers :
    (∀ (doc : HtmlDoc) (n : Nat), (parse_match_logs doc n).length ≤ n) ∧
    (∀ (t : HtmlTable) (rest : List HtmlTable) (n : Nat),
       t.classes.contains "stats_table" = true →
       parse_match_logs ⟨t :: rest⟩ n = parse_match_logs ⟨[t]⟩ n) ∧
    (∀ (t : HtmlTable) (rest : List HtmlTable) (sp : TRow) (n : Nat),
       t.classes.contains "stats_table" = true →
       sp.classes.contains "spacer" = true →
       parse_match_logs ⟨{ t with rows := sp :: t.rows } :: rest⟩ n
         = parse_match_logs ⟨t :: rest⟩ n) ∧
    parse_match_logs docTwoRows 2 = [matchArsenal, matchChelsea] := by
  refine ⟨?_, ?_, ?_, by decide⟩
  · intro doc n
    unfold parse_match_logs
    split
    · simp
    · exact le_trans (List.length_filterMap_le _ _) (List.length_take_le _ _)
  · intro t rest n h
    rw [parse_match_logs_first_table t rest n h,
      parse_match_logs_first_table t [] n h]
  · intro t rest sp n h hsp
    rw [parse_match_logs_first_table { t with rows := sp :: t.rows } rest n h,
      parse_match_logs_first_table t rest n h]
    simp [List.filter_cons, keepRow_false_of_spacer sp hsp]

/-- C8 witness: the bound, the first-table restriction and the spacer
exclusion at concrete inputs. -/
theorem parse_match_logs_limit_order_spacers_witness :
    (parse_match_logs docTwoRows 7).length ≤ 7 ∧
    parse_match_logs ⟨[⟨["stats_table"], [rowArsenal]⟩, ⟨["stats_table"], [rowChelsea]⟩]⟩ 5
      = parse_match_logs ⟨[⟨["stats_table"], [rowArsenal]⟩]⟩ 5 ∧
    parse_match_logs ⟨[⟨["stats_table"], rowSpacer :: [rowArsenal]⟩]⟩ 1
      = parse_match_logs ⟨[⟨["stats_table"], [rowArsenal]⟩]⟩ 1 :=
  ⟨parse_match_logs_limit_order_spacers.1 docTwoRows 7,
   parse_match_logs_limit_order_spacers.2.1 ⟨["stats_table"], [rowArsenal]⟩
      [⟨["stats_table"], [rowChelsea]⟩] 5 (by decide),
   parse_match_logs_limit_order_spacers.2.2.1 ⟨["stats_table"], [rowArsenal]⟩
      [] rowSpacer 1 (by decide) (by decide)⟩

/-- Loop invariant for `getLoop`: the client state is either left exactly
as it was, or stamped with `now` — and stamping happens only together with
an `ok` result. -/
theorem getLoop_state_invariant (first : FirstOutcome) (browser : Nat → BrowserOutcome)
    (max_retries now : Nat) (st : ClientState) :
    ∀ (fuel retries : Nat) (response : Option HttpResponse),
      (getLoop first browser max_retries now st fuel retries response).2 = st ∨
      ((getLoop first browser max_retries now st fuel retries response).2
          = ⟨now⟩ ∧
       ∃ r, (getLoop first browser max_retries now st fuel retries response).1
          = .ok r) := by
  intro fuel
  induction fuel with
  | zero => intro retries response; exact Or.inl rfl
  | succ fuel ih =>
    intro retries response
    simp only [getLoop]
    repeat' split
    all_goals
      first
        | exact Or.inl rfl
        | exact Or.inr ⟨rfl, _, rfl⟩
        | exact ih _ _

/-- C9: `get` updates `last_request_time` only when it delivers a
response: on every exception outcome the state is exactly the initial one,
and any state change is a stamp to the delivery time accompanied by an
`ok` result (http.py lines 218, 274 are the only writes). -/
theorem last_request_time_updated_only_on_delivery (first : FirstOutcome)
    (browser : Nat → BrowserOutcome) (max_retries now : Nat) (st : ClientState) :
    (∀ e, (RateLimitedHTTPClient.get first browser max_retries now st).1 = .err e →
       (RateLimitedHTTPClient.get first browser max_retries now st).2 = st) ∧
    ((RateLimitedHTTPClient.get first browser max_retries now st).2 = st ∨
     ((RateLimitedHTTPClient.get first browser max_retries now st).2 = ⟨now⟩ ∧
      ∃ r, (RateLimitedHTTPClient.get first browser max_retries now st).1 = .ok r)) := by
  have h := getLoop_state_invariant first browser max_retries now st
    (max_retries + 2) 0 none
  refine ⟨?_, h⟩
  intro e he
  rcases h with h | ⟨-, r, hr⟩
  · exact h
  · rw [RateLimitedHTTPClient.get] at he
    rw [he] at hr
    exact GetResult.noConfusion hr

/-- C9 witness: a run ending in a raised exception leaves the timestamp
untouched. -/
theorem last_request_time_updated_only_on_delivery_witness :
    (RateLimitedHTTPClient.get .exn (fun _ => .page "x") 0 42 ⟨7⟩).2 = ⟨7⟩ :=
  (last_request_time_updated_only_on_delivery .exn (fun _ => .page "x") 0 42 ⟨7⟩).1
    .requestExn (by decide)

/-- C10: a found mock team carries at most `num_matches` matches, and an
exact hit on the lowercased dataset key is served before any partial
(containment) matching is consulted. -/
theorem get_mock_team_limit_and_exact_precedence :
    (∀ (name : String) (n : Nat) (t : Team),
       get_mock_team name n = some t → t.«matches».length ≤ n) ∧
    (∀ (name : String) (n : Nat) (kv : String × Team),
       TEAM_DATA.find? (fun kv => kv.1 = pyLower name) = some kv →
       get_mock_team name n = some { kv.2 with «matches» := kv.2.«matches».take n }) := by
  constructor
  · intro name n t h
    simp only [get_mock_team] at h
    split at h
    · obtain rfl := Option.some.inj h
      simp [List.length_take_le]
    · split at h
      · obtain rfl := Option.some.inj h
        simp [List.length_take_le]
      · exact absurd h (by simp)
  · intro name n kv h
    simp only [get_mock_team, h]

/-- C10 witness: the Manchester City mock team capped at 7 obeys the
limit, and the exact key "liverpool" is served via the exact branch. -/
theorem get_mock_team_limit_and_exact_precedence_witness :
    manCityMock.«matches».length ≤ 7 ∧
    get_mock_team "Liverpool" 5
      = some { (⟨"Liverpool", "822bd0ba", []⟩ : Team) with
                «matches» := ([] : List Match).take 5 } :=
  ⟨get_mock_team_limit_and_exact_precedence.1 "Manchester City" 7 manCityMock (by decide),
   get_mock_team_limit_and_exact_precedence.2 "Liverpool" 5
      ("liverpool", ⟨"Liverpool", "822bd0ba", []⟩) (by decide)⟩
